import Mathlib

/-!
Shallow embedding of the MindfulMate emotion/risk pipeline
(src/core/emotion_analyzer.py, src/core/conversation_manager.py,
src/therapeutic/crisis_detection.py).

Python floats are modelled as rationals (ℚ); timestamps as rational
seconds; dictionaries with `.get(key, default)` as structures of
`Option` fields read through `Option.getD`.  A generative-model call
that may raise is modelled as an `Option` argument (`none` = the call
raised, `some g` = the parsed payload).
-/

namespace MindfulMate

/-- Source `isPrefixL p l` : the char list `p` is a prefix of `l`. -/
def isPrefixL : List Char → List Char → Bool
  | [], _ => true
  | _ :: _, [] => false
  | p :: ps, c :: cs => p == c && isPrefixL ps cs

/-- Python `pat in hay` substring test on char lists. -/
def containsL (pat : List Char) : List Char → Bool
  | [] => isPrefixL pat []
  | c :: rest => isPrefixL pat (c :: rest) || containsL pat rest

/-- Python `str.lower()` (ASCII case folding suffices for the fixed
keyword tables of the source). -/
def lower (s : String) : List Char :=
  s.toList.map Char.toLower

/-- Source `containsSub hay pat` : Python `pat in hay` for strings, with
`hay` already given as a char list. -/
def containsSub (hay : List Char) (pat : String) : Bool :=
  containsL pat.toList hay

/-- EmotionState enum (emotion_analyzer.py). -/
inductive EmotionState
  | anxious | depressed | stressed | angry | happy | calm | confused | excited
deriving DecidableEq, Repr, BEq

/-- RiskLevel enum (emotion_analyzer.py). -/
inductive RiskLevel
  | low | medium | high | crisis
deriving DecidableEq, Repr, BEq

/-- The `risk_priorities` table of MultimodalEmotionFusion.fuse_emotions
(low 0, medium 1, high 2, crisis 3). -/
def riskPriority : RiskLevel → ℕ
  | .low => 0
  | .medium => 1
  | .high => 2
  | .crisis => 3

/-- The `risk_values` table of _update_risk_assessment
(low 1, medium 2, high 3, crisis 4). -/
def riskValuesPy : RiskLevel → ℕ
  | .low => 1
  | .medium => 2
  | .high => 3
  | .crisis => 4

/-- Source `.value` strings of EmotionState. -/
def emotionValue : EmotionState → String
  | .anxious => "anxious"
  | .depressed => "depressed"
  | .stressed => "stressed"
  | .angry => "angry"
  | .happy => "happy"
  | .calm => "calm"
  | .confused => "confused"
  | .excited => "excited"

/-- Source `.value` strings of RiskLevel. -/
def riskValue : RiskLevel → String
  | .low => "low"
  | .medium => "medium"
  | .high => "high"
  | .crisis => "crisis"

/-- EmotionAnalysis dataclass (emotion_analyzer.py). -/
structure EmotionAnalysis where
  primary_emotion : EmotionState
  confidence : ℚ
  risk_level : RiskLevel
  emotional_indicators : List String
  suggested_technique : String
  intensity : String
  patterns : List String
deriving DecidableEq, Repr

/-! ### TextEmotionAnalyzer -/

/-- Source `self.crisis_keywords` of TextEmotionAnalyzer. -/
def crisis_keywords : List String :=
  ["suicide", "kill myself", "end it all", "better off dead",
   "self harm", "hurt myself", "cutting", "overdose",
   "hopeless", "worthless", "no point", "can\x27t go on",
   "want to die", "end my life", "not worth living"]

/-- Source `self.emotion_keywords` of TextEmotionAnalyzer, in dict insertion
order. -/
def emotion_keywords : List (EmotionState × List String) :=
  [(.anxious, ["worried", "nervous", "scared", "panic", "anxious", "afraid"]),
   (.depressed, ["sad", "empty", "hopeless", "worthless", "depressed", "down"]),
   (.stressed, ["overwhelmed", "pressure", "stressed", "burden", "exhausted"]),
   (.angry, ["angry", "furious", "mad", "frustrated", "rage", "irritated"]),
   (.happy, ["happy", "joy", "excited", "good", "great", "wonderful"])]

/-- Source `_detect_crisis_keywords` (the argument is the already lowercased
text). -/
def detect_crisis_keywords (textLower : List Char) : Bool :=
  crisis_keywords.any (fun k => containsSub textLower k)

/-- Source `_string_to_emotion`: unknown strings default to CALM. -/
def string_to_emotion (s : String) : EmotionState :=
  match String.mk (lower s) with
  | "anxious" => .anxious
  | "depressed" => .depressed
  | "stressed" => .stressed
  | "angry" => .angry
  | "happy" => .happy
  | "calm" => .calm
  | "confused" => .confused
  | "excited" => .excited
  | _ => .calm

/-- Source `_string_to_risk`: unknown strings default to LOW. -/
def string_to_risk (s : String) : RiskLevel :=
  match String.mk (lower s) with
  | "low" => .low
  | "medium" => .medium
  | "high" => .high
  | "crisis" => .crisis
  | _ => .low

/-- The parsed payload of `gemma_client.analyze_emotion_from_text`,
a JSON dict read with `.get(key, default)`: each field is `none` when
the key is absent. -/
structure GemmaAnalysis where
  primary_emotion : Option String
  confidence : Option ℚ
  risk_level : Option String
  crisis_indicators : Option (List String)
  positive_indicators : Option (List String)
  emotional_patterns : Option (List String)
  suggested_approach : Option String
  intensity : Option String
deriving DecidableEq, Repr

/-- Source `_suggest_text_technique`. -/
def suggest_text_technique (emotion : EmotionState) (risk : RiskLevel)
    (analysis : GemmaAnalysis) : String :=
  if risk = .crisis then "crisis_intervention"
  else if risk = .high then "safety_planning"
  else
    let suggested_approach := analysis.suggested_approach.getD ""
    if ["cbt", "behavioral_activation", "validation", "crisis_intervention"].contains suggested_approach then
      suggested_approach
    else
      match emotion with
      | .anxious => "breathing_exercise"
      | .depressed => "behavioral_activation"
      | .stressed => "grounding_technique"
      | .angry => "emotion_regulation"
      | .confused => "clarification_questions"
      | _ => "validation"

/-- Python `max(items, key=value)` over an association list: the
first element of maximal value (a later element replaces the current
best only when strictly greater), `none` on the empty list. -/
def pyArgmax {α : Type} : List (α × ℚ) → Option (α × ℚ)
  | [] => none
  | x :: xs => some (xs.foldl (fun best y => if y.2 > best.2 then y else best) x)

/-- Source `_fallback_text_analysis`: keyword-based fallback.  The
`match … | none` branch mirrors the source `else` branch (taken only
when the scores dict is empty, which never happens for the fixed
keyword table). -/
def fallback_text_analysis (text : String) (crisis_detected : Bool) : EmotionAnalysis :=
  let text_lower := lower text
  let emotion_scores : List (EmotionState × ℚ) :=
    emotion_keywords.map (fun p =>
      (p.1, ((p.2.filter (fun k => containsSub text_lower k)).length : ℚ) / (p.2.length : ℚ)))
  let pe : EmotionState × ℚ :=
    match pyArgmax emotion_scores with
    | some best => best
    | none => (.calm, 3/10)
  let risk_level : RiskLevel := if crisis_detected then .crisis else .low
  ⟨pe.1, pe.2, risk_level, ["Keyword-based analysis"], "validation", "medium",
   ["fallback_analysis"]⟩

/-- Source `analyze_text_emotion`.  `gemma = none` models the
`gemma_client.analyze_emotion_from_text` call raising (the `except`
branch); `gemma = some g` the successful call returning payload `g`. -/
def analyze_text_emotion (text : String) (gemma : Option GemmaAnalysis) : EmotionAnalysis :=
  let crisis_detected := detect_crisis_keywords (lower text)
  match gemma with
  | none => fallback_text_analysis text crisis_detected
  | some g =>
    let emotion_str := g.primary_emotion.getD "calm"
    let primary_emotion := string_to_emotion emotion_str
    let confidence := g.confidence.getD (1/2)
    let risk_level :=
      if crisis_detected then RiskLevel.crisis
      else string_to_risk (g.risk_level.getD "low")
    let crisis_indicators := g.crisis_indicators.getD []
    let positive_indicators := g.positive_indicators.getD []
    let patterns := g.emotional_patterns.getD []
    let indicators0 := crisis_indicators ++ positive_indicators
    let indicators :=
      if crisis_detected && crisis_indicators.isEmpty then
        indicators0 ++ ["Crisis keywords detected"]
      else indicators0
    let technique := suggest_text_technique primary_emotion risk_level g
    ⟨primary_emotion, confidence, risk_level, indicators, technique,
     g.intensity.getD "medium", patterns⟩

/-! ### VoiceEmotionAnalyzer -/

/-- The `voice_features` input dict: `.get(key, default)` reads are
modelled by `Option.getD` with the documented defaults. -/
structure VoiceFeatures where
  pitch_mean : Option ℚ
  pitch_variance : Option ℚ
  speech_rate : Option ℚ
  energy : Option ℚ
  avg_pause_duration : Option ℚ
deriving DecidableEq, Repr

/-- Source `_calculate_anxiety_score`. -/
def calculate_anxiety_score (pitch_mean pitch_variance speech_rate energy : ℚ) : ℚ :=
  let score : ℚ := 0
  let score := if pitch_variance > 75 then score + 3/10 else score
  let score := if speech_rate > 180 then score + 3/10 else score
  let score := if pitch_mean > 200 then score + 2/10 else score
  let score := if energy > 6/10 ∧ (pitch_variance > 60 ∨ speech_rate > 170)
               then score + 2/10 else score
  min score 1

/-- Source `_calculate_depression_score`. -/
def calculate_depression_score (pitch_mean energy pause_duration speech_rate : ℚ) : ℚ :=
  let score : ℚ := 0
  let score := if energy < 3/10 then score + 4/10 else score
  let score := if pitch_mean < 120 then score + 3/10 else score
  let score := if pause_duration > 3/2 then score + 3/10 else score
  let score := if speech_rate < 120 then score + 2/10 else score
  min score 1

/-- Source `_calculate_stress_score`. -/
def calculate_stress_score (speech_rate pitch_variance energy : ℚ) : ℚ :=
  let score : ℚ := 0
  let score := if speech_rate > 200 ∨ speech_rate < 100 then score + 3/10 else score
  let score := if pitch_variance > 80 then score + 3/10 else score
  let score := if energy > 7/10 ∧ pitch_variance > 60 then score + 2/10 else score
  let score := if (4/10 < energy ∧ energy < 7/10) ∧ (speech_rate > 190 ∨ speech_rate < 110)
               then score + 2/10 else score
  min score 1

/-- Source `_calculate_anger_score`. -/
def calculate_anger_score (pitch_mean energy speech_rate : ℚ) : ℚ :=
  let score : ℚ := 0
  let score := if energy > 8/10 then score + 4/10 else score
  let score := if pitch_mean > 180 then score + 3/10 else score
  let score := if speech_rate > 190 then score + 3/10 else score
  min score 1

/-- Source `_calculate_happiness_score`. -/
def calculate_happiness_score (pitch_mean energy speech_rate pitch_variance : ℚ) : ℚ :=
  let score : ℚ := 0
  let score := if 6/10 < energy ∧ energy < 9/10 then score + 3/10 else score
  let score := if 160 < pitch_mean ∧ pitch_mean < 200 then score + 2/10 else score
  let score := if 150 < speech_rate ∧ speech_rate < 180 then score + 2/10 else score
  let score := if 40 < pitch_variance ∧ pitch_variance < 70 then score + 3/10 else score
  min score 1

/-- Source `_calculate_calm_score`. -/
def calculate_calm_score (pitch_variance speech_rate energy pause_duration : ℚ) : ℚ :=
  let score : ℚ := 0
  let score := if 25 < pitch_variance ∧ pitch_variance < 55 then score + 3/10 else score
  let score := if 140 < speech_rate ∧ speech_rate < 170 then score + 3/10 else score
  let score := if 4/10 < energy ∧ energy < 7/10 then score + 2/10 else score
  let score := if 3/10 < pause_duration ∧ pause_duration < 8/10 then score + 2/10 else score
  min score 1

/-- The `emotion_scores` dict of `_calculate_emotion_scores`, with its
six keys in insertion order. -/
structure VoiceScores where
  anxious : ℚ
  depressed : ℚ
  stressed : ℚ
  angry : ℚ
  happy : ℚ
  calm : ℚ
deriving DecidableEq, Repr

/-- Source `_calculate_emotion_scores`. -/
def calculate_emotion_scores (pitch_mean pitch_variance speech_rate energy pause_duration : ℚ) :
    VoiceScores :=
  ⟨calculate_anxiety_score pitch_mean pitch_variance speech_rate energy,
   calculate_depression_score pitch_mean energy pause_duration speech_rate,
   calculate_stress_score speech_rate pitch_variance energy,
   calculate_anger_score pitch_mean energy speech_rate,
   calculate_happiness_score pitch_mean energy speech_rate pitch_variance,
   calculate_calm_score pitch_variance speech_rate energy pause_duration⟩

/-- The dict `emotion_scores` as an association list in Python
insertion order (used by `max(emotion_scores, key=emotion_scores.get)`
and `emotion_scores.values()`). -/
def voiceScoresAssoc (s : VoiceScores) : List (EmotionState × ℚ) :=
  [(.anxious, s.anxious), (.depressed, s.depressed), (.stressed, s.stressed),
   (.angry, s.angry), (.happy, s.happy), (.calm, s.calm)]

/-- Source `_assess_voice_risk`. -/
def assess_voice_risk (scores : VoiceScores) (vf : VoiceFeatures) : RiskLevel :=
  let energy := vf.energy.getD (1/2)
  let speech_rate := vf.speech_rate.getD 150
  let pause_duration := vf.avg_pause_duration.getD (1/2)
  if scores.depressed > 8/10 ∧ energy < 2/10 ∧ speech_rate < 100 then .crisis
  else if scores.anxious > 8/10 ∧ pause_duration > 2 then .high
  else if ((voiceScoresAssoc scores).filter (fun p => p.2 > 7/10)).length ≥ 2 then .high
  else if max (max scores.depressed scores.anxious) scores.stressed > 6/10 then .medium
  else .low

/-- Source `_generate_voice_indicators`. -/
def generate_voice_indicators (vf : VoiceFeatures) : List String :=
  let speech_rate := vf.speech_rate.getD 150
  let energy := vf.energy.getD (1/2)
  let pitch_variance := vf.pitch_variance.getD 50
  let pause_duration := vf.avg_pause_duration.getD (1/2)
  let indicators : List String := []
  let indicators := if speech_rate > 190 then indicators ++ ["Rapid speech pattern"]
    else if speech_rate < 120 then indicators ++ ["Slow speech pattern"] else indicators
  let indicators := if energy < 3/10 then indicators ++ ["Low vocal energy"]
    else if energy > 8/10 then indicators ++ ["High vocal energy"] else indicators
  let indicators := if pitch_variance > 75 then indicators ++ ["Variable pitch patterns"]
    else if pitch_variance < 25 then indicators ++ ["Monotone speech"] else indicators
  let indicators := if pause_duration > 3/2 then indicators ++ ["Extended pauses"]
    else if pause_duration < 2/10 then indicators ++ ["Minimal pauses"] else indicators
  indicators

/-- Source `_calculate_intensity`. -/
def calculate_intensity (confidence : ℚ) : String :=
  if confidence > 7/10 then "high"
  else if confidence > 4/10 then "medium"
  else "low"

/-- Source `_suggest_voice_technique`. -/
def suggest_voice_technique (emotion : EmotionState) (risk : RiskLevel) : String :=
  if risk = .crisis then "crisis_intervention"
  else if risk = .high then "safety_planning"
  else
    match emotion with
    | .anxious => "breathing_exercise"
    | .depressed => "behavioral_activation"
    | .stressed => "grounding_technique"
    | .angry => "emotion_regulation"
    | .happy => "positive_reinforcement"
    | .calm => "maintenance_check"
    | _ => "general_support"

/-- Source `_identify_voice_patterns`. -/
def identify_voice_patterns (vf : VoiceFeatures) : List String :=
  let energy := vf.energy.getD (1/2)
  let speech_rate := vf.speech_rate.getD 150
  let pitch_variance := vf.pitch_variance.getD 50
  let patterns : List String := []
  let patterns := if energy < 3/10 ∧ speech_rate < 120
    then patterns ++ ["potential_depression_indicators"] else patterns
  let patterns := if speech_rate > 180 ∧ pitch_variance > 70
    then patterns ++ ["potential_anxiety_indicators"] else patterns
  let patterns := if (speech_rate > 200 ∨ speech_rate < 100) ∧ energy > 6/10
    then patterns ++ ["potential_stress_indicators"] else patterns
  patterns

/-- Source `analyze_voice_features`. -/
def analyze_voice_features (vf : VoiceFeatures) : EmotionAnalysis :=
  let pitch_mean := vf.pitch_mean.getD 150
  let pitch_variance := vf.pitch_variance.getD 50
  let speech_rate := vf.speech_rate.getD 150
  let energy := vf.energy.getD (1/2)
  let pause_duration := vf.avg_pause_duration.getD (1/2)
  let emotion_scores := calculate_emotion_scores pitch_mean pitch_variance speech_rate energy pause_duration
  let pe : EmotionState × ℚ :=
    match pyArgmax (voiceScoresAssoc emotion_scores) with
    | some best => best
    | none => (.calm, 0)
  let risk_level := assess_voice_risk emotion_scores vf
  ⟨pe.1, pe.2, risk_level,
   generate_voice_indicators vf,
   suggest_voice_technique pe.1 risk_level,
   calculate_intensity pe.2,
   identify_voice_patterns vf⟩

/-! ### MultimodalEmotionFusion -/

/-- Constructor constants of MultimodalEmotionFusion. -/
def voice_weight : ℚ := 4/10
def text_weight : ℚ := 6/10
def min_confidence : ℚ := 3/10
def agreement_bonus : ℚ := 2/10

/-- Source `_choose_combined_technique`. -/
def choose_combined_technique (risk : RiskLevel)
    (voice_analysis text_analysis : EmotionAnalysis) : String :=
  if risk = .crisis then "crisis_intervention"
  else if risk = .high then "safety_planning"
  else if voice_analysis.suggested_technique = text_analysis.suggested_technique then
    voice_analysis.suggested_technique
  else text_analysis.suggested_technique

/-- The `intensity_values.get(s, 2)` lookup of
`_determine_combined_intensity`. -/
def intensityValue (s : String) : ℚ :=
  match s with
  | "low" => 1
  | "medium" => 2
  | "high" => 3
  | _ => 2

/-- Source `_determine_combined_intensity`. -/
def determine_combined_intensity (voice_intensity text_intensity : String)
    (confidence : ℚ) : String :=
  let voice_val := intensityValue voice_intensity
  let text_val := intensityValue text_intensity
  let combined_val := voice_val * voice_weight + text_val * text_weight
  let combined_val :=
    if confidence > 8/10 then combined_val * (11/10)
    else if confidence < 4/10 then combined_val * (9/10)
    else combined_val
  if combined_val > 5/2 then "high"
  else if combined_val > 3/2 then "medium"
  else "low"

/-- Python list deduplication `list(set(a + b))` of `fuse_emotions`,
modelled as order-preserving deduplication (the source relies on no
particular set iteration order; `patterns` is documented set-like). -/
def dedupPatterns (l : List String) : List String :=
  l.foldl (fun acc s => if acc.contains s then acc else acc ++ [s]) []

/-- Source `fuse_emotions`.  `voice_analysis = none` models the falsy
`voice_analysis` argument. -/
def fuse_emotions (voice_analysis : Option EmotionAnalysis)
    (text_analysis : EmotionAnalysis) : EmotionAnalysis :=
  match voice_analysis with
  | none => text_analysis
  | some va =>
    let combined_confidence :=
      va.confidence * voice_weight + text_analysis.confidence * text_weight
    let emotions_agree := va.primary_emotion = text_analysis.primary_emotion
    let primary_emotion :=
      if emotions_agree then va.primary_emotion else text_analysis.primary_emotion
    let combined_confidence :=
      if emotions_agree then min (combined_confidence + agreement_bonus) 1
      else combined_confidence * (8/10)
    -- Python max([voice.risk_level, text.risk_level], key=priority):
    -- the second element wins only when strictly greater.
    let risk_level :=
      if riskPriority text_analysis.risk_level > riskPriority va.risk_level
      then text_analysis.risk_level else va.risk_level
    let combined_indicators :=
      va.emotional_indicators ++ text_analysis.emotional_indicators
    let combined_patterns := dedupPatterns (va.patterns ++ text_analysis.patterns)
    let technique := choose_combined_technique risk_level va text_analysis
    let intensity :=
      determine_combined_intensity va.intensity text_analysis.intensity combined_confidence
    ⟨primary_emotion, max combined_confidence min_confidence, risk_level,
     combined_indicators, technique, intensity, combined_patterns⟩

/-! ### CrisisDetector (crisis_detection.py) -/

/-- CrisisType enum. -/
inductive CrisisType
  | suicidal_ideation | self_harm | severe_depression | panic_attack
  | psychotic_episode | substance_abuse
deriving DecidableEq, Repr

/-- CrisisUrgency enum. -/
inductive CrisisUrgency
  | immediate | urgent | monitor
deriving DecidableEq, Repr

/-- One entry of `self.crisis_patterns`. -/
structure CrisisPattern where
  ctype : CrisisType
  keywords : List String
  phrases : List String
  urgency : CrisisUrgency
deriving DecidableEq, Repr

/-- Source `self.crisis_patterns` of CrisisDetector, in dict insertion order. -/
def crisis_patterns : List CrisisPattern :=
  [⟨.suicidal_ideation,
    ["suicide", "kill myself", "end it all", "want to die",
     "better off dead", "end my life", "not worth living",
     "suicide plan", "ways to die"],
    ["i want to die", "i should die", "kill me",
     "end it all", "can\x27t go on", "no reason to live"],
    .immediate⟩,
   ⟨.self_harm,
    ["hurt myself", "cut myself", "self harm", "cutting",
     "burn myself", "punch wall", "harm myself"],
    ["want to hurt myself", "cutting helps", "pain makes it better"],
    .urgent⟩,
   ⟨.severe_depression,
    ["hopeless", "worthless", "useless", "burden",
     "empty", "numb", "void", "pointless"],
    ["nothing matters", "no point", "completely hopeless",
     "total failure", "everyone hates me"],
    .monitor⟩,
   ⟨.panic_attack,
    ["panic attack", "can\x27t breathe", "heart racing",
     "chest pain", "dizzy", "dying"],
    ["having a panic attack", "can\x27t catch my breath",
     "feel like dying", "heart pounding"],
    .urgent⟩]

/-- Keyword matches of `_calculate_crisis_score` (argument text already
lowercased). -/
def keywordMatches (p : CrisisPattern) (textLower : List Char) : ℕ :=
  (p.keywords.filter (fun k => containsSub textLower k)).length

/-- Phrase matches of `_calculate_crisis_score`. -/
def phraseMatches (p : CrisisPattern) (textLower : List Char) : ℕ :=
  (p.phrases.filter (fun k => containsSub textLower k)).length

/-- Source `_calculate_crisis_score`. -/
def calculate_crisis_score (textLower : List Char) (p : CrisisPattern) : ℚ :=
  let keyword_score := min ((keywordMatches p textLower : ℚ) * (3/10)) (8/10)
  let phrase_score := min ((phraseMatches p textLower : ℚ) * (1/2)) 1
  max keyword_score phrase_score

/-- Source `_urgency_priority`. -/
def urgency_priority : CrisisUrgency → ℕ
  | .monitor => 1
  | .urgent => 2
  | .immediate => 3

/-- One entry of the `detected_crises` list built by `detect_crisis`. -/
structure DetectedCrisis where
  ctype : CrisisType
  score : ℚ
  urgency : CrisisUrgency
deriving DecidableEq, Repr

/-- Result of `detect_crisis` (the fields the keyword path computes;
`emotion_context` is its default `None` here, so the contextual branch
adds nothing). -/
structure CrisisDetection where
  crisis_detected : Bool
  crisis_types : List DetectedCrisis
  highest_urgency : Option CrisisUrgency
  immediate_action_needed : Bool
  safety_planning_required : Bool
deriving DecidableEq, Repr

/-- Source `detect_crisis` with `emotion_context = None`. -/
def detect_crisis (text : String) : CrisisDetection :=
  let text_lower := lower text
  let detected_crises :=
    (crisis_patterns.filter (fun p => calculate_crisis_score text_lower p > 3/10)).map
      (fun p => DetectedCrisis.mk p.ctype (calculate_crisis_score text_lower p) p.urgency)
  let highest_urgency :=
    detected_crises.foldl
      (fun best c =>
        match best with
        | none => some c.urgency
        | some b => if urgency_priority c.urgency > urgency_priority b then some c.urgency else best)
      none
  ⟨decide (detected_crises.length > 0),
   detected_crises,
   highest_urgency,
   decide (highest_urgency = some .immediate),
   decide (detected_crises.length > 0)⟩

/-! ### ConversationManager (conversation_manager.py)

`datetime.now()` is modelled by an explicit `now : ℚ` (seconds)
argument threaded through the operations; `timedelta(seconds=t)` is the
rational `t`. -/

/-- One entry of `conversation_history` (the dict literal built by
`add_interaction`; the emotion and risk fields hold the enum
`.value` strings, as in the source). -/
structure Interaction where
  timestamp : ℚ
  user : String
  assistant : String
  emotion : String
  risk_level : String
  confidence : ℚ
deriving DecidableEq, Repr

/-- ConversationContext dataclass. -/
structure ConversationContext where
  user_id : String
  session_id : String
  conversation_history : List Interaction
  emotion_history : List EmotionAnalysis
  risk_flags : List String
  last_interaction : ℚ
  session_start : ℚ
  therapeutic_goals : List String
  check_in_schedule : List (String × String)
deriving DecidableEq, Repr

/-- Python slice `lst[-n:]`: for `n = 0` it is `lst[0:]`, the whole
list; otherwise the last `n` elements (all of them when `n ≥ len`). -/
def pySliceLast {α : Type} (n : ℕ) (l : List α) : List α :=
  if n = 0 then l else l.drop (l.length - n)

/-- Source `_create_new_context` (without the store insertion, which
`get_or_create_context` performs on the returned pair). -/
def create_new_context (now : ℚ) (user_id session_id : String) : ConversationContext :=
  ⟨user_id, session_id, [], [], [], now, now, [], []⟩

/-- Source `f"{user_id}:{session_id}"`. -/
def context_key (user_id session_id : String) : String :=
  user_id ++ ":" ++ session_id

/-- The `active_sessions` dict, as an association list. -/
def SessionStore : Type := List (String × ConversationContext)

/-- Dict lookup on the session store. -/
def storeLookup (key : String) : SessionStore → Option ConversationContext
  | [] => none
  | (k, c) :: rest => if k = key then some c else storeLookup key rest

/-- Dict assignment `store[key] = ctx`. -/
def storeInsert (key : String) (ctx : ConversationContext) : SessionStore → SessionStore
  | [] => [(key, ctx)]
  | (k, c) :: rest =>
      if k = key then (k, ctx) :: rest else (k, c) :: storeInsert key ctx rest

/-- Source `get_or_create_context` with an explicit session id (the source
draws a fresh uuid only when `session_id` is `None`; the claims always
supply one).  Returns the context together with the updated store. -/
def get_or_create_context (session_timeout : ℚ) (now : ℚ)
    (store : SessionStore) (user_id session_id : String) :
    ConversationContext × SessionStore :=
  let key := context_key user_id session_id
  match storeLookup key store with
  | some context =>
      if now - context.last_interaction > session_timeout then
        let c := create_new_context now user_id session_id
        (c, storeInsert key c store)
      else (context, store)
  | none =>
      let c := create_new_context now user_id session_id
      (c, storeInsert key c store)

/-- Source `negative_emotions` of `_update_risk_assessment`. -/
def negative_emotions : List EmotionState := [.depressed, .anxious, .stressed]

/-- The `all(risk_values[r[i]] <= risk_values[r[i+1]] ...)` check of
`_update_risk_assessment`. -/
def risksNondecreasing : List RiskLevel → Bool
  | [] => true
  | [_] => true
  | a :: b :: rest => decide (riskValuesPy a ≤ riskValuesPy b) && risksNondecreasing (b :: rest)

/-- Source `_update_risk_assessment`: clears `session_` flags, then re-adds
them from the current window. -/
def update_risk_assessment (ctx : ConversationContext)
    (emotion_analysis : EmotionAnalysis) : ConversationContext :=
  let flags := ctx.risk_flags.filter (fun f => !(f.startsWith "session_"))
  let flags :=
    if emotion_analysis.risk_level = .crisis then flags ++ ["session_crisis_detected"]
    else flags
  let recent_emotions :=
    if ctx.emotion_history.length ≥ 5 then pySliceLast 5 ctx.emotion_history
    else ctx.emotion_history
  let negative_count :=
    (recent_emotions.filter (fun a => negative_emotions.contains a.primary_emotion)).length
  let flags :=
    if negative_count ≥ 4 then flags ++ ["session_persistent_negative_mood"] else flags
  let flags :=
    if ctx.emotion_history.length ≥ 3 then
      let recent_risks := (pySliceLast 3 ctx.emotion_history).map (fun a => a.risk_level)
      if risksNondecreasing recent_risks then flags ++ ["session_escalating_risk"] else flags
    else flags
  { ctx with risk_flags := flags }

/-- Source `goal_mapping` of `_update_therapeutic_goals`. -/
def goal_mapping : EmotionState → Option String
  | .anxious => some "anxiety_management"
  | .depressed => some "mood_improvement"
  | .stressed => some "stress_reduction"
  | .angry => some "anger_management"
  | _ => none

/-- Source `_update_therapeutic_goals`. -/
def update_therapeutic_goals (ctx : ConversationContext)
    (emotion_analysis : EmotionAnalysis) : ConversationContext :=
  let goals :=
    match goal_mapping emotion_analysis.primary_emotion with
    | some goal =>
        if ctx.therapeutic_goals.contains goal then ctx.therapeutic_goals
        else ctx.therapeutic_goals ++ [goal]
    | none => ctx.therapeutic_goals
  let goals := if goals.length > 3 then pySliceLast 3 goals else goals
  { ctx with therapeutic_goals := goals }

/-- Source `add_interaction`. -/
def add_interaction (max_history : ℕ) (now : ℚ) (ctx : ConversationContext)
    (user_input ai_response : String) (emotion_analysis : EmotionAnalysis) :
    ConversationContext :=
  let interaction : Interaction :=
    ⟨now, user_input, ai_response,
     emotionValue emotion_analysis.primary_emotion,
     riskValue emotion_analysis.risk_level,
     emotion_analysis.confidence⟩
  let conv := ctx.conversation_history ++ [interaction]
  let emo := ctx.emotion_history ++ [emotion_analysis]
  let trim := conv.length > max_history
  let conv := if trim then pySliceLast max_history conv else conv
  let emo := if trim then pySliceLast max_history emo else emo
  let ctx := { ctx with conversation_history := conv, emotion_history := emo,
                        last_interaction := now }
  let ctx := update_risk_assessment ctx emotion_analysis
  update_therapeutic_goals ctx emotion_analysis

/-- Source `should_suggest_professional_help`. -/
def should_suggest_professional_help (now : ℚ) (ctx : ConversationContext) : Bool :=
  if ctx.risk_flags.contains "session_crisis_detected" then true
  else if ctx.risk_flags.contains "session_persistent_negative_mood" &&
          ctx.risk_flags.contains "session_escalating_risk" then true
  else if now - ctx.session_start > 7200 ∧ ctx.conversation_history.length > 15 then true
  else false

/-- Source `cleanup_expired_sessions`: removes entries whose last interaction
predates `now − session_timeout`; returns the new store and the count
removed. -/
def cleanup_expired_sessions (session_timeout : ℚ) (now : ℚ)
    (store : SessionStore) : SessionStore × ℕ :=
  let cutoff := now - session_timeout
  let kept := store.filter (fun p => !(decide (p.2.last_interaction < cutoff)))
  (kept, store.length - kept.length)

/-- Folding a sequence of `add_interaction` calls: each entry is
(timestamp, user text, assistant text, emotion analysis). -/
def run_interactions (max_history : ℕ) (ctx : ConversationContext)
    (ops : List (ℚ × String × String × EmotionAnalysis)) : ConversationContext :=
  ops.foldl (fun c op => add_interaction max_history op.1 c op.2.1 op.2.2.1 op.2.2.2) ctx

/-! ### Helper lemmas -/

/-- Risk-flag recomputation does not touch the conversation history. -/
@[simp] theorem update_risk_assessment_conversation_history
    (ctx : ConversationContext) (ea : EmotionAnalysis) :
    (update_risk_assessment ctx ea).conversation_history = ctx.conversation_history := rfl

/-- Risk-flag recomputation does not touch the emotion history. -/
@[simp] theorem update_risk_assessment_emotion_history
    (ctx : ConversationContext) (ea : EmotionAnalysis) :
    (update_risk_assessment ctx ea).emotion_history = ctx.emotion_history := rfl

/-- Goal updating does not touch the conversation history. -/
@[simp] theorem update_therapeutic_goals_conversation_history
    (ctx : ConversationContext) (ea : EmotionAnalysis) :
    (update_therapeutic_goals ctx ea).conversation_history = ctx.conversation_history := rfl

/-- Goal updating does not touch the emotion history. -/
@[simp] theorem update_therapeutic_goals_emotion_history
    (ctx : ConversationContext) (ea : EmotionAnalysis) :
    (update_therapeutic_goals ctx ea).emotion_history = ctx.emotion_history := rfl

/-- Goal updating does not touch the risk flags. -/
@[simp] theorem update_therapeutic_goals_risk_flags
    (ctx : ConversationContext) (ea : EmotionAnalysis) :
    (update_therapeutic_goals ctx ea).risk_flags = ctx.risk_flags := rfl

/-- Length of the Python slice `lst[-n:]`. -/
theorem pySliceLast_length {α : Type} (n : ℕ) (l : List α) :
    (pySliceLast n l).length = if n = 0 then l.length else min n l.length := by
  unfold pySliceLast
  split_ifs with h
  · rfl
  · simp [List.length_drop]
    omega

/-- A crisis keyword in the lowered text makes the scan fire. -/
theorem detect_crisis_keywords_of_mem {text : String} {k : String}
    (hk : k ∈ crisis_keywords) (hc : containsSub (lower text) k = true) :
    detect_crisis_keywords (lower text) = true := by
  unfold detect_crisis_keywords
  rw [List.any_eq_true]
  exact ⟨k, hk, hc⟩

/-! ### Claim theorems -/

/-- C1.  Any input text whose lowercased form contains one of the fixed
crisis keywords is classified with risk_level = CRISIS by
analyze_text_emotion, whatever the generative-model call reports
(`gemma = some g` with any payload `g`) and also on the fallback path
(`gemma = none`). -/
theorem C1_crisis_keyword_override (text : String) (gemma : Option GemmaAnalysis)
    (h : ∃ k ∈ crisis_keywords, containsSub (lower text) k = true) :
    (analyze_text_emotion text gemma).risk_level = RiskLevel.crisis := by
  obtain ⟨k, hk, hc⟩ := h
  have hdet := detect_crisis_keywords_of_mem hk hc
  cases gemma with
  | none => simp [analyze_text_emotion, hdet, fallback_text_analysis]
  | some g => simp [analyze_text_emotion, hdet]

/-- Witness for C1 at the concrete text "I want to end it all", once
with a successful model call reporting low risk and once on the
exception path. -/
theorem C1_crisis_keyword_override_witness :
    (analyze_text_emotion "I want to end it all"
      (some ⟨some "happy", some (9/10), some "low", some [], some [], some [], none, none⟩)).risk_level
        = RiskLevel.crisis ∧
    (analyze_text_emotion "I want to end it all" none).risk_level = RiskLevel.crisis :=
  ⟨C1_crisis_keyword_override _ _ ⟨"end it all", by decide, by decide⟩,
   C1_crisis_keyword_override _ none ⟨"end it all", by decide, by decide⟩⟩

/-- C2 counterexample.  With the crisis text "I want to end it all" and
a successful model analysis whose crisis-indicator list is empty, the
result does NOT carry the Step-3 fallback markers: its indicator list
is not ["Keyword-based analysis"] and its pattern list is not
["fallback_analysis"] (the code keeps the model output and merely
appends "Crisis keywords detected"). -/
theorem C2_no_fallback_counterexample :
    ¬ ((analyze_text_emotion "I want to end it all"
          (some ⟨some "happy", some (9/10), some "low", some [], some ["p1"],
                 some ["model_pattern"], some "cbt", some "low"⟩)).emotional_indicators
        = ["Keyword-based analysis"] ∧
       (analyze_text_emotion "I want to end it all"
          (some ⟨some "happy", some (9/10), some "low", some [], some ["p1"],
                 some ["model_pattern"], some "cbt", some "low"⟩)).patterns
        = ["fallback_analysis"]) := by
  decide

/-- C2 amended.  When the model analysis succeeds with an empty
crisis-indicator list on a text containing a crisis keyword,
analyze_text_emotion does not fall back to Step 3: it keeps the model
primary emotion and patterns, uses the model positive indicators with
"Crisis keywords detected" appended, and forces risk_level = CRISIS. -/
theorem C2_crisis_without_indicators (text : String) (g : GemmaAnalysis)
    (h : ∃ k ∈ crisis_keywords, containsSub (lower text) k = true)
    (hempty : g.crisis_indicators.getD [] = []) :
    (analyze_text_emotion text (some g)).risk_level = RiskLevel.crisis ∧
    (analyze_text_emotion text (some g)).primary_emotion
      = string_to_emotion (g.primary_emotion.getD "calm") ∧
    (analyze_text_emotion text (some g)).emotional_indicators
      = g.positive_indicators.getD [] ++ ["Crisis keywords detected"] ∧
    (analyze_text_emotion text (some g)).patterns = g.emotional_patterns.getD [] := by
  obtain ⟨k, hk, hc⟩ := h
  have hdet := detect_crisis_keywords_of_mem hk hc
  refine ⟨?_, ?_, ?_, ?_⟩ <;> simp [analyze_text_emotion, hdet, hempty]

/-- Witness for C2 amended, at the counterexample input. -/
theorem C2_crisis_without_indicators_witness :
    (analyze_text_emotion "I want to end it all"
      (some ⟨some "happy", some (9/10), some "low", some [], some ["p1"],
             some ["model_pattern"], some "cbt", some "low"⟩)).emotional_indicators
      = ["p1", "Crisis keywords detected"] := by
  have h := C2_crisis_without_indicators "I want to end it all"
    ⟨some "happy", some (9/10), some "low", some [], some ["p1"],
     some ["model_pattern"], some "cbt", some "low"⟩
    ⟨"end it all", by decide, by decide⟩ (by decide)
  exact h.2.2.1

/-- C3 code evaluation.  At the failing input "hello" (no emotion
keyword of any category, no crisis keyword) the keyword fallback does
NOT return the documented default CALM with confidence 0.3: the
always-true truthiness check on the non-empty scores dict routes the
code through argmax, which returns the first zero-scored emotion
(ANXIOUS) with confidence 0.  Risk is LOW as documented. -/
theorem C3_fallback_no_keywords_code_eval :
    (analyze_text_emotion "hello" none).primary_emotion = EmotionState.anxious ∧
    (analyze_text_emotion "hello" none).confidence = 0 ∧
    (analyze_text_emotion "hello" none).risk_level = RiskLevel.low := by
  have h0 : analyze_text_emotion "hello" none = fallback_text_analysis "hello" false := rfl
  have h1 : (emotion_keywords.map fun p =>
      (p.1, ((p.2.filter fun k => containsSub (lower "hello") k).length : ℚ) / (p.2.length : ℚ)))
      = [(.anxious, (0:ℚ)/6), (.depressed, (0:ℚ)/6), (.stressed, (0:ℚ)/5),
         (.angry, (0:ℚ)/6), (.happy, (0:ℚ)/6)] := rfl
  have harg : pyArgmax (emotion_keywords.map fun p =>
      (p.1, ((p.2.filter fun k => containsSub (lower "hello") k).length : ℚ) / (p.2.length : ℚ)))
      = some (EmotionState.anxious, 0) := by
    rw [h1]
    norm_num [pyArgmax]
  rw [h0]
  simp only [fallback_text_analysis]
  rw [harg]
  norm_num

/-- Adding a crisis-risk interaction always raises the
session_crisis_detected flag. -/
theorem add_interaction_crisis_flag (mh : ℕ) (t : ℚ) (ctx : ConversationContext)
    (u a : String) (ea : EmotionAnalysis) (h : ea.risk_level = RiskLevel.crisis) :
    "session_crisis_detected" ∈ (add_interaction mh t ctx u a ea).risk_flags := by
  unfold add_interaction
  rw [update_therapeutic_goals_risk_flags]
  unfold update_risk_assessment
  simp only [h, if_true, reduceIte]
  split_ifs <;> simp [List.mem_append]

/-- C4.  should_suggest_professional_help holds exactly when the
crisis flag is set, or both the persistent-negative-mood and
escalating-risk flags are set, or the session exceeds 2 hours with
more than 15 interactions; and it holds immediately after a single
add_interaction whose analysis is CRISIS-level. -/
theorem C4_professional_help_iff (now : ℚ) (ctx : ConversationContext) :
    (should_suggest_professional_help now ctx = true ↔
      ("session_crisis_detected" ∈ ctx.risk_flags ∨
       ("session_persistent_negative_mood" ∈ ctx.risk_flags ∧
        "session_escalating_risk" ∈ ctx.risk_flags) ∨
       (now - ctx.session_start > 7200 ∧ ctx.conversation_history.length > 15))) ∧
    ∀ (max_history : ℕ) (t now2 : ℚ) (u a : String) (ea : EmotionAnalysis),
      ea.risk_level = RiskLevel.crisis →
      should_suggest_professional_help now2 (add_interaction max_history t ctx u a ea) = true := by
  constructor
  · unfold should_suggest_professional_help
    split_ifs with h1 h2 h3 <;>
      simp_all [List.contains_iff_exists_mem_beq, beq_iff_eq, List.elem_iff]
  · intro mh t now2 u a ea hcrisis
    have hm := add_interaction_crisis_flag mh t ctx u a ea hcrisis
    unfold should_suggest_professional_help
    rw [if_pos (List.elem_eq_true_of_mem hm)]

/-- Witness for C4: a single CRISIS interaction on a fresh context
makes the professional-help recommendation fire. -/
theorem C4_professional_help_iff_witness :
    should_suggest_professional_help 5
      (add_interaction 20 1 (create_new_context 0 "u" "s") "help" "reply"
        ⟨EmotionState.depressed, 1, RiskLevel.crisis, [], "crisis_intervention", "high", []⟩)
      = true :=
  (C4_professional_help_iff 5 (create_new_context 0 "u" "s")).2 20 1 5 "help" "reply"
    ⟨EmotionState.depressed, 1, RiskLevel.crisis, [], "crisis_intervention", "high", []⟩ rfl

/-- One add_interaction step keeps the two histories the same length
and within the bound, provided the bound is positive. -/
theorem add_interaction_history_lengths (mh : ℕ) (hmh : 1 ≤ mh) (now : ℚ)
    (ctx : ConversationContext) (u a : String) (ea : EmotionAnalysis)
    (heq : ctx.conversation_history.length = ctx.emotion_history.length) :
    (add_interaction mh now ctx u a ea).conversation_history.length
      = (add_interaction mh now ctx u a ea).emotion_history.length ∧
    (add_interaction mh now ctx u a ea).conversation_history.length ≤ mh := by
  unfold add_interaction
  simp only [update_therapeutic_goals_conversation_history,
    update_therapeutic_goals_emotion_history,
    update_risk_assessment_conversation_history,
    update_risk_assessment_emotion_history]
  have hmh0 : ¬ (mh = 0) := by omega
  split_ifs with h <;> simp_all [pySliceLast_length]

/-- The history-length invariant is preserved by any sequence of
add_interaction calls. -/
theorem run_interactions_inv (mh : ℕ) (hmh : 1 ≤ mh)
    (ops : List (ℚ × String × String × EmotionAnalysis)) :
    ∀ ctx : ConversationContext,
      ctx.conversation_history.length = ctx.emotion_history.length →
      ctx.conversation_history.length ≤ mh →
      (run_interactions mh ctx ops).conversation_history.length
        = (run_interactions mh ctx ops).emotion_history.length ∧
      (run_interactions mh ctx ops).conversation_history.length ≤ mh := by
  induction ops with
  | nil => intro ctx h1 h2; exact ⟨h1, h2⟩
  | cons op rest ih =>
    intro ctx h1 h2
    have h := add_interaction_history_lengths mh hmh op.1 ctx op.2.1 op.2.2.1 op.2.2.2 h1
    simp only [run_interactions, List.foldl_cons]
    exact ih _ h.1 h.2

/-- C5 counterexample.  With max_history = 0 the Python slice
`lst[-0:]` keeps the whole list, so one addition already exceeds the
bound: the claim fails as stated for a manager built with
max_history = 0. -/
theorem C5_maxhistory_zero_counterexample :
    ¬ ((add_interaction 0 1 (create_new_context 0 "u" "s") "hi" "ok"
          ⟨EmotionState.calm, 1, RiskLevel.low, [], "maintenance_check", "low", []⟩).conversation_history.length
        ≤ 0) := by
  decide

/-- C5 amended.  For every manager bound max_history ≥ 1 and every
sequence of add_interaction calls starting from a freshly created
context, the two histories keep equal lengths and never exceed
max_history. -/
theorem C5_bounded_lockstep (mh : ℕ) (hmh : 1 ≤ mh) (start : ℚ) (u s : String)
    (ops : List (ℚ × String × String × EmotionAnalysis)) :
    (run_interactions mh (create_new_context start u s) ops).conversation_history.length
      = (run_interactions mh (create_new_context start u s) ops).emotion_history.length ∧
    (run_interactions mh (create_new_context start u s) ops).conversation_history.length ≤ mh :=
  run_interactions_inv mh hmh ops (create_new_context start u s) rfl (Nat.zero_le mh)

/-- Sample analysis used by concrete session scenarios. -/
def demoAnalysis (e : EmotionState) (r : RiskLevel) : EmotionAnalysis :=
  ⟨e, 1, r, [], "validation", "medium", []⟩

/-- Five sequential interactions used as the concrete C5 scenario. -/
def demoOps : List (ℚ × String × String × EmotionAnalysis) :=
  [(1, "m1", "r1", demoAnalysis .anxious .low),
   (2, "m2", "r2", demoAnalysis .depressed .low),
   (3, "m3", "r3", demoAnalysis .stressed .low),
   (4, "m4", "r4", demoAnalysis .angry .low),
   (5, "m5", "r5", demoAnalysis .happy .low)]

/-- Witness for C5: with max_history = 3, five sequential additions
keep the histories in lockstep and leave exactly the last three
entries in both lists. -/
theorem C5_bounded_lockstep_witness :
    ((run_interactions 3 (create_new_context 0 "u" "s") demoOps).conversation_history.length
      = (run_interactions 3 (create_new_context 0 "u" "s") demoOps).emotion_history.length ∧
     (run_interactions 3 (create_new_context 0 "u" "s") demoOps).conversation_history.length ≤ 3) ∧
    (run_interactions 3 (create_new_context 0 "u" "s") demoOps).conversation_history.map
        (fun i => i.user) = ["m3", "m4", "m5"] ∧
    (run_interactions 3 (create_new_context 0 "u" "s") demoOps).emotion_history.map
        (fun a => a.primary_emotion) = [.stressed, .angry, .happy] :=
  ⟨C5_bounded_lockstep 3 (by decide) 0 "u" "s" demoOps, by decide, by decide⟩

/-- C6.  Looking up an existing (user, session) context: before the
timeout has elapsed since last_interaction the stored context is
returned and the store is unchanged; strictly after the timeout a
fresh context with empty history, emotion history, risk flags and
goals replaces it under the same key. -/
theorem C6_session_expiry (timeout now : ℚ) (store : SessionStore)
    (u s : String) (ctx : ConversationContext)
    (hlook : storeLookup (context_key u s) store = some ctx) :
    (now - ctx.last_interaction ≤ timeout →
      get_or_create_context timeout now store u s = (ctx, store)) ∧
    (now - ctx.last_interaction > timeout →
      (get_or_create_context timeout now store u s).1 = create_new_context now u s ∧
      (get_or_create_context timeout now store u s).1.conversation_history = [] ∧
      (get_or_create_context timeout now store u s).1.emotion_history = [] ∧
      (get_or_create_context timeout now store u s).1.risk_flags = [] ∧
      (get_or_create_context timeout now store u s).1.therapeutic_goals = []) := by
  unfold get_or_create_context
  simp only [hlook]
  constructor
  · intro h
    rw [if_neg (not_lt.mpr h)]
  · intro h
    rw [if_pos h]
    exact ⟨rfl, rfl, rfl, rfl, rfl⟩

/-- Witness for C6: a context last touched at time 0 with timeout
3600 is returned unchanged at time 100 and replaced by an
empty-history context at time 4000. -/
theorem C6_session_expiry_witness :
    get_or_create_context 3600 100 [("u:s", create_new_context 0 "u" "s")] "u" "s"
      = (create_new_context 0 "u" "s", [("u:s", create_new_context 0 "u" "s")]) ∧
    (get_or_create_context 3600 4000 [("u:s", create_new_context 0 "u" "s")] "u" "s").1.conversation_history
      = [] := by
  have h1 := C6_session_expiry 3600 100 [("u:s", create_new_context 0 "u" "s")] "u" "s"
    (create_new_context 0 "u" "s") (by decide)
  have h2 := C6_session_expiry 3600 4000 [("u:s", create_new_context 0 "u" "s")] "u" "s"
    (create_new_context 0 "u" "s") (by decide)
  exact ⟨h1.1 (by norm_num [create_new_context]),
         (h2.2 (by norm_num [create_new_context])).2.1⟩

/-- C7.  With both modalities present, the fused risk level is the
maximum of the two risk levels in the order low < medium < high <
crisis: it is one of the two inputs and not lower than either. -/
theorem C7_fusion_risk_max (va ta : EmotionAnalysis) :
    ((fuse_emotions (some va) ta).risk_level = va.risk_level ∨
     (fuse_emotions (some va) ta).risk_level = ta.risk_level) ∧
    riskPriority va.risk_level ≤ riskPriority ((fuse_emotions (some va) ta).risk_level) ∧
    riskPriority ta.risk_level ≤ riskPriority ((fuse_emotions (some va) ta).risk_level) := by
  have hr : (fuse_emotions (some va) ta).risk_level =
      (if riskPriority ta.risk_level > riskPriority va.risk_level
       then ta.risk_level else va.risk_level) := rfl
  rw [hr]
  cases hv : va.risk_level <;> cases ht : ta.risk_level <;> decide

/-- C8.  For voice features pitch_mean 110, pitch_variance 15,
speech_rate 90, energy 0.1 (pause defaulted to 0.5) the voice scorer
returns DEPRESSED with risk CRISIS; the depression score is 0.9 and is
the unique maximum of the score vector. -/
theorem C8_voice_depressed_crisis :
    (analyze_voice_features ⟨some 110, some 15, some 90, some (1/10), none⟩).primary_emotion
      = EmotionState.depressed ∧
    (analyze_voice_features ⟨some 110, some 15, some 90, some (1/10), none⟩).risk_level
      = RiskLevel.crisis ∧
    (calculate_emotion_scores 110 15 90 (1/10) (1/2)).depressed = 9/10 ∧
    (∀ p ∈ voiceScoresAssoc (calculate_emotion_scores 110 15 90 (1/10) (1/2)),
      p.1 ≠ EmotionState.depressed → p.2 < 9/10) := by
  have hs : calculate_emotion_scores 110 15 90 (1/10) (1/2)
      = ⟨0, 9/10, 3/10, 0, 0, 1/5⟩ := by
    unfold calculate_emotion_scores calculate_anxiety_score calculate_depression_score
      calculate_stress_score calculate_anger_score calculate_happiness_score calculate_calm_score
    norm_num [min_def]
  have hp : pyArgmax (voiceScoresAssoc (⟨0, 9/10, 3/10, 0, 0, 1/5⟩ : VoiceScores))
      = some (EmotionState.depressed, 9/10) := by
    norm_num [pyArgmax, voiceScoresAssoc]
  have hrisk : assess_voice_risk (⟨0, 9/10, 3/10, 0, 0, 1/5⟩ : VoiceScores)
      ⟨some 110, some 15, some 90, some (1/10), none⟩ = RiskLevel.crisis := by
    unfold assess_voice_risk
    norm_num
  have h0 : analyze_voice_features ⟨some 110, some 15, some 90, some (1/10), none⟩
      = ⟨EmotionState.depressed, 9/10,
         assess_voice_risk (calculate_emotion_scores 110 15 90 (1/10) (1/2))
           ⟨some 110, some 15, some 90, some (1/10), none⟩,
         generate_voice_indicators ⟨some 110, some 15, some 90, some (1/10), none⟩,
         suggest_voice_technique EmotionState.depressed
           (assess_voice_risk (calculate_emotion_scores 110 15 90 (1/10) (1/2))
             ⟨some 110, some 15, some 90, some (1/10), none⟩),
         calculate_intensity (9/10),
         identify_voice_patterns ⟨some 110, some 15, some 90, some (1/10), none⟩⟩ := by
    unfold analyze_voice_features
    simp only [Option.getD_some, Option.getD_none, hs, hp]
  refine ⟨?_, ?_, ?_, ?_⟩
  · rw [h0]
  · rw [h0]
    show assess_voice_risk (calculate_emotion_scores 110 15 90 (1/10) (1/2)) _ = _
    rw [hs, hrisk]
  · rw [hs]
  · rw [hs]
    norm_num [voiceScoresAssoc]

/-- C9.  With both modalities present and both confidences in [0,1],
the fused confidence lies in [0.3, 1]. -/
theorem C9_fused_confidence_bounds (va ta : EmotionAnalysis)
    (hv0 : 0 ≤ va.confidence) (hv1 : va.confidence ≤ 1)
    (ht0 : 0 ≤ ta.confidence) (ht1 : ta.confidence ≤ 1) :
    3/10 ≤ (fuse_emotions (some va) ta).confidence ∧
    (fuse_emotions (some va) ta).confidence ≤ 1 := by
  have hc : (fuse_emotions (some va) ta).confidence =
      max (if va.primary_emotion = ta.primary_emotion
           then min (va.confidence * voice_weight + ta.confidence * text_weight + agreement_bonus) 1
           else (va.confidence * voice_weight + ta.confidence * text_weight) * (8/10))
          min_confidence := rfl
  rw [hc]
  unfold voice_weight text_weight agreement_bonus min_confidence
  constructor
  · exact le_max_right _ _
  · apply max_le
    · split_ifs
      · exact min_le_right _ _
      · nlinarith [hv0, hv1, ht0, ht1]
    · norm_num

/-- Witness for C9 at confidences 1 (voice) and 0 (text) with
disagreeing emotions. -/
theorem C9_fused_confidence_bounds_witness :
    3/10 ≤ (fuse_emotions
        (some ⟨.calm, 1, .low, [], "maintenance_check", "low", []⟩)
        ⟨.happy, 0, .low, [], "validation", "medium", []⟩).confidence ∧
    (fuse_emotions
        (some ⟨.calm, 1, .low, [], "maintenance_check", "low", []⟩)
        ⟨.happy, 0, .low, [], "validation", "medium", []⟩).confidence ≤ 1 :=
  C9_fused_confidence_bounds _ _ (by decide) (by decide) (by decide) (by decide)

/-- A keyword score exceeds the 0.3 threshold exactly when at least
two keywords matched. -/
theorem keyword_score_gt (n : ℕ) :
    (3/10 : ℚ) < min ((n:ℚ) * (3/10)) (8/10) ↔ 2 ≤ n := by
  rw [lt_min_iff]
  constructor
  · rintro ⟨h, -⟩
    by_contra hn
    push_neg at hn
    interval_cases n <;> norm_num at h
  · intro hn
    refine ⟨?_, by norm_num⟩
    have h2 : (2:ℚ) ≤ (n:ℚ) := by exact_mod_cast hn
    nlinarith

/-- A phrase score exceeds the 0.3 threshold exactly when at least one
phrase matched. -/
theorem phrase_score_gt (m : ℕ) :
    (3/10 : ℚ) < min ((m:ℚ) * (1/2)) 1 ↔ 1 ≤ m := by
  rw [lt_min_iff]
  constructor
  · rintro ⟨h, -⟩
    by_contra hm
    push_neg at hm
    interval_cases m
    norm_num at h
  · intro hm
    refine ⟨?_, by norm_num⟩
    have h2 : (1:ℚ) ≤ (m:ℚ) := by exact_mod_cast hm
    nlinarith

/-- The combined category score exceeds the detection threshold
exactly when two keywords or one phrase of that category matched. -/
theorem crisis_score_gt (tl : List Char) (p : CrisisPattern) :
    3/10 < calculate_crisis_score tl p ↔
      2 ≤ keywordMatches p tl ∨ 1 ≤ phraseMatches p tl := by
  unfold calculate_crisis_score
  rw [lt_max_iff, keyword_score_gt, phrase_score_gt]

/-- C10.  detect_crisis reports a crisis exactly when some category
has at least two keyword matches or at least one phrase match; in
particular a single keyword match of a single category (score exactly
0.3, not strictly above the 0.3 threshold) is not flagged, and one
keyword match with no phrase match scores exactly 0.3. -/
theorem C10_crisis_detection_threshold (text : String) :
    ((detect_crisis text).crisis_detected = true ↔
      ∃ p ∈ crisis_patterns,
        2 ≤ keywordMatches p (lower text) ∨ 1 ≤ phraseMatches p (lower text)) ∧
    ∀ p ∈ crisis_patterns,
      keywordMatches p (lower text) = 1 → phraseMatches p (lower text) = 0 →
      calculate_crisis_score (lower text) p = 3/10 := by
  constructor
  · simp only [detect_crisis, decide_eq_true_eq, List.length_map, gt_iff_lt]
    rw [List.length_pos_iff_exists_mem]
    constructor
    · rintro ⟨p, hp⟩
      rw [List.mem_filter] at hp
      refine ⟨p, hp.1, ?_⟩
      exact (crisis_score_gt _ p).mp (by simpa using hp.2)
    · rintro ⟨p, hp, hscore⟩
      exact ⟨p, List.mem_filter.mpr ⟨hp, by simpa using (crisis_score_gt _ p).mpr hscore⟩⟩
  · intro p _ hk hph
    unfold calculate_crisis_score
    rw [hk, hph]
    norm_num [min_def, max_def]

/-- Witness for C10: "I feel hopeless today" matches exactly one
keyword (severe-depression "hopeless") and no phrase, scores exactly
0.3, and is not flagged as a crisis. -/
theorem C10_crisis_detection_threshold_witness :
    (detect_crisis "I feel hopeless today").crisis_detected = false ∧
    calculate_crisis_score (lower "I feel hopeless today")
      ⟨.severe_depression,
       ["hopeless", "worthless", "useless", "burden",
        "empty", "numb", "void", "pointless"],
       ["nothing matters", "no point", "completely hopeless",
        "total failure", "everyone hates me"],
       .monitor⟩ = 3/10 := by
  have h := C10_crisis_detection_threshold "I feel hopeless today"
  refine ⟨?_, h.2 _ (by decide) (by decide) (by decide)⟩
  have hne : ¬ (∃ p ∈ crisis_patterns,
      2 ≤ keywordMatches p (lower "I feel hopeless today") ∨
      1 ≤ phraseMatches p (lower "I feel hopeless today")) := by decide
  have hnt : (detect_crisis "I feel hopeless today").crisis_detected ≠ true :=
    fun hc => hne (h.1.mp hc)
  simpa using hnt

end MindfulMate
